import Mathlib

/-!
Verification development for the sensor-telemetry ingestion server
(`server/mqtt-client.ts`, `server/cleanup-scheduler.ts`).

Times are modelled as `Int` epoch milliseconds; JavaScript numbers that
hold alcohol levels are modelled as `Int` (the properties under study
quantify over integer levels).  Asynchronous storage calls that can throw
are modelled by explicit `Except`/`Bool` parameters carrying the outcome
of the call.
-/

namespace Apk

/-! ### Alert status (mqtt-client.ts, `calculateAlertStatus`) -/

/-- Embeds `calculateAlertStatus` from mqtt-client.ts: thresholds 2500 and
1700, checked in that order. -/
def calculateAlertStatus (alcoholLevel : Int) : String :=
  if alcoholLevel ≥ 2500 then "Completely Drunk"
  else if alcoholLevel ≥ 1700 then "Moderate Drunk"
  else "Normal"

/-! ### Payload decoding (mqtt-client.ts, `handleMessage` lines 469-502)

A JavaScript value produced by `JSON.parse` is modelled by `Json`.
`Json.prim pf` stands for any parsed value that is neither an object with
fields nor a JSON number (strings, booleans, null, ...); it carries the
result `pf` of applying `parseFloat` to it (`none` = NaN).  Arrays behave
like objects without the recognized fields, which `Json.obj` with absent
keys also captures. -/

inductive Json where
  | obj : List (String × Json) → Json
  | num : Int → Json
  | prim : Option Int → Json

/-- JavaScript `parseFloat(x) || 0` applied to a field value: a number
yields itself, a value whose `parseFloat` is NaN (or a parse result of 0)
yields 0. -/
def jsParseFloatOr0 : Json → Int
  | Json.num n => n
  | Json.prim (some k) => k
  | Json.prim none => 0
  | Json.obj _ => 0

/-- Embeds the field-priority extraction of `handleMessage`: the first
defined field among `alcohol_level`, `Index`, `level`, `value` wins and is
run through `parseFloat(...) || 0`; if none is defined the level is 0. -/
def extractAlcoholLevel (fields : List (String × Json)) : Int :=
  match fields.lookup "alcohol_level" with
  | some v => jsParseFloatOr0 v
  | none =>
    match fields.lookup "Index" with
    | some v => jsParseFloatOr0 v
    | none =>
      match fields.lookup "level" with
      | some v => jsParseFloatOr0 v
      | none =>
        match fields.lookup "value" with
        | some v => jsParseFloatOr0 v
        | none => 0

/-- An incoming MQTT payload, abstracted at the two branch points the code
uses: whether `JSON.parse` succeeds (and on what value), and what
`parseFloat` of the raw payload string yields (`none` = NaN).  When
`JSON.parse` succeeds the code never consults the raw `parseFloat` value,
but we carry it so that claims about it can be stated. -/
inductive RawMessage where
  | parsed : Json → Option Int → RawMessage
  | unparsed : Option Int → RawMessage

/-- The `parseFloat(messageStr)` denotation of a payload. -/
def rawParseFloatValue : RawMessage → Option Int
  | RawMessage.parsed _ pf => pf
  | RawMessage.unparsed pf => pf

/-- The recognized field names, in the priority order of the source. -/
def recognizedFieldNames : List String := ["alcohol_level", "Index", "level", "value"]

/-- True when structured decoding finds at least one recognized field. -/
def hasRecognizedField : Json → Bool
  | Json.obj fields => recognizedFieldNames.any (fun k => (fields.lookup k).isSome)
  | _ => false

/-- Embeds the decode phase of `handleMessage`: a successfully parsed
object goes through field extraction; any other successfully parsed value
fails the `typeof parsedMessage === 'object'` (or truthiness) check and
yields level 0; a payload that is not JSON is tried with `parseFloat` and
the message is dropped (`none`) exactly when that is NaN. -/
def decodeMessage : RawMessage → Option Int
  | RawMessage.parsed (Json.obj fields) _ => some (extractAlcoholLevel fields)
  | RawMessage.parsed (Json.num _) _ => some 0
  | RawMessage.parsed (Json.prim _) _ => some 0
  | RawMessage.unparsed (some n) => some n
  | RawMessage.unparsed none => none

/-! ### Message handling state and trace (mqtt-client.ts, `handleMessage`) -/

/-- A cached latest reading (value stored in `latestReadingsCache`). -/
structure Reading where
  alcoholLevel : Int
  timestamp : Int
  alertStatus : String
deriving Repr, DecidableEq

/-- An element of the batch buffer (`BatchedData` in mqtt-client.ts). -/
structure BatchedData where
  deviceId : String
  alcoholLevel : Int
  alertStatus : String
  timestamp : Int
deriving Repr, DecidableEq

/-- The mutable state `handleMessage` touches: the latest-readings cache
(an association list modelling the `Map`) and the batch buffer. -/
structure MqttState where
  latestReadingsCache : List (String × Reading)
  batchBuffer : List BatchedData
deriving Repr, DecidableEq

/-- `Map.set` on the association list modelling `latestReadingsCache`. -/
def cacheSet (c : List (String × Reading)) (k : String) (v : Reading) :
    List (String × Reading) :=
  match c with
  | [] => [(k, v)]
  | (k', v') :: rest => if k' = k then (k, v) :: rest else (k', v') :: cacheSet rest k v

/-- Observable actions of `handleMessage`, in program order.  The
asynchronous `flushBatch()` call made when the buffer is full is recorded
as `flushTriggered`; its effect on the buffer is the separate `flushBatch`
function. -/
inductive MqttEvent where
  | cacheUpdate : String → Reading → MqttEvent
  | sensorBroadcast : String → Reading → MqttEvent
  | enqueued : BatchedData → MqttEvent
  | flushTriggered : MqttEvent
  | deviceStatusOnline : String → MqttEvent
deriving Repr, DecidableEq

/-- `BATCH_SIZE` from mqtt-client.ts. -/
def BATCH_SIZE : Nat := 100

/-- Embeds `handleMessage`: decode the payload (dropping the message with
no state change when decoding fails), compute the alert status, update the
cache, broadcast the sensor reading when a sink is installed, push onto
the batch buffer, trigger a flush when the buffer has reached
`BATCH_SIZE`, then update the device status.  Returns the new state and
the ordered trace of observable actions. -/
def handleMessage (hasSink : Bool) (st : MqttState) (devId : String) (now : Int)
    (msg : RawMessage) : MqttState × List MqttEvent :=
  match decodeMessage msg with
  | none => (st, [])
  | some lvl =>
    let alertStatus := calculateAlertStatus lvl
    let r : Reading := ⟨lvl, now, alertStatus⟩
    let b : BatchedData := ⟨devId, lvl, alertStatus, now⟩
    let buf := st.batchBuffer ++ [b]
    (⟨cacheSet st.latestReadingsCache devId r, buf⟩,
      [MqttEvent.cacheUpdate devId r]
        ++ (if hasSink then [MqttEvent.sensorBroadcast devId r] else [])
        ++ [MqttEvent.enqueued b]
        ++ (if BATCH_SIZE ≤ buf.length then [MqttEvent.flushTriggered] else [])
        ++ [MqttEvent.deviceStatusOnline devId])

/-! ### Batch flushing (mqtt-client.ts, `flushBatch`)

`persistOk d` is the outcome of `storage.createDeviceData` for reading
`d` (`false` = the call throws).  `enqueuedDuring` is the content the new
buffer has accumulated by the time the loop finishes (readings pushed by
`handleMessage` while the per-item awaits are pending); in a quiescent
system it is `[]`. -/

/-- Embeds the persistence loop of `flushBatch`: each reading of the
swapped-out batch is attempted in order; successes are counted, failures
are collected in order. Returns `(successCount, failedItems)`. -/
def flushLoop (persistOk : BatchedData → Bool) : List BatchedData → Nat × List BatchedData
  | [] => (0, [])
  | d :: rest =>
    let r := flushLoop persistOk rest
    if persistOk d then (r.1 + 1, r.2) else (r.1, d :: r.2)

/-- Embeds `flushBatch(retryOnError)`: an empty buffer returns 0 at once;
otherwise the buffer is swapped for an empty one, every reading is
attempted individually, and failed readings are `unshift`ed back onto the
new buffer when `retryOnError` is set, else dropped.  Returns the success
count and the buffer as it stands after the call. -/
def flushBatch (persistOk : BatchedData → Bool) (retryOnError : Bool)
    (buffer enqueuedDuring : List BatchedData) : Nat × List BatchedData :=
  if buffer = [] then (0, [])
  else
    let r := flushLoop persistOk buffer
    (r.1, if r.2 ≠ [] ∧ retryOnError then r.2 ++ enqueuedDuring else enqueuedDuring)

/-! ### Device liveness sweep (mqtt-client.ts, `checkDeviceTimeouts`) -/

/-- The fields of a device record the sweep reads or writes.  `lastSeen`
is an epoch-millisecond timestamp, `none` when the column is null. -/
structure Device where
  id : Nat
  deviceId : String
  isActive : Bool
  status : String
  lastSeen : Option Int
deriving Repr, DecidableEq

/-- An appended offline event (`logDeviceOfflineEvent` call). -/
structure OfflineEvent where
  deviceId : String
  offlineAt : Int
deriving Repr, DecidableEq

/-- `DEVICE_OFFLINE_THRESHOLD_MS` from mqtt-client.ts. -/
def DEVICE_OFFLINE_THRESHOLD_MS : Int := 10000

/-- `device.lastSeen ? new Date(device.lastSeen).getTime() : 0`. -/
def lastSeenTime (d : Device) : Int := d.lastSeen.getD 0

/-- The sweep's per-device trigger condition: active, currently `online`,
and silent for strictly longer than the threshold. -/
def timesOut (now : Int) (d : Device) : Bool :=
  d.isActive && d.status == "online" &&
    decide (now - lastSeenTime d > DEVICE_OFFLINE_THRESHOLD_MS)

/-- The update a triggering device receives (`updateDevice` with
`status: 'offline'` only — `lastSeen` is not written by this sweep). -/
def sweepDevice (now : Int) (d : Device) : Device :=
  if timesOut now d then { d with status := "offline" } else d

/-- Embeds one run of `checkDeviceTimeouts`: every device is examined;
triggering devices are set offline and get one offline event each, all
others are left as they are.  Returns the device table after the sweep
and the offline events appended by it, in order. -/
def checkDeviceTimeouts (now : Int) (devices : List Device) :
    List Device × List OfflineEvent :=
  (devices.map (sweepDevice now),
    (devices.filter (timesOut now)).map (fun d => ⟨d.deviceId, now⟩))

/-! ### Cleanup scheduler (cleanup-scheduler.ts) -/

/-- `CLEANUP_INTERVAL_DAYS` from cleanup-scheduler.ts. -/
def CLEANUP_INTERVAL_DAYS : Int := 2

/-- Embeds `calculateNextScheduledTimeFromLast`: pure duration addition of
`intervalDays * 24h` (in milliseconds) to the execution instant. -/
def calculateNextScheduledTimeFromLast (lastExecutionTime : Int) : Int :=
  lastExecutionTime + CLEANUP_INTERVAL_DAYS * 24 * 60 * 60 * 1000

/-- The persisted `CleanupScheduleState` fields the scheduler reads or
writes on the tick and manual paths. -/
structure CleanupSchedule where
  lastExecutionTime : Option Int
  nextScheduledTime : Option Int
  isEnabled : Bool
deriving Repr, DecidableEq

/-- Outcome of one `checkAndRunCleanup` tick: the persisted schedule after
the tick, whether `clearAllDeviceData` was invoked, and the count it
returned when it succeeded. -/
structure TickResult where
  schedule : Option CleanupSchedule
  wipeAttempted : Bool
  deletedCount : Option Nat
deriving Repr, DecidableEq

/-- Embeds `checkAndRunCleanup`.  `schedule` is what
`getCleanupSchedule` returned, `now` the tick instant, `wipe` the outcome
of `clearAllDeviceData` (`Except.error` = the call throws), `updateOk`
the outcome of `updateCleanupSchedule`.  Any throw lands in the
surrounding catch, which only logs, so the persisted schedule survives
unchanged on every failing path. -/
def checkAndRunCleanup (schedule : Option CleanupSchedule) (now : Int)
    (wipe : Except Unit Nat) (updateOk : Bool) : TickResult :=
  match schedule with
  | none => ⟨none, false, none⟩
  | some s =>
    if s.isEnabled = false then ⟨some s, false, none⟩
    else
      match s.nextScheduledTime with
      | none => ⟨some s, false, none⟩
      | some next =>
        if next ≤ now then
          match wipe with
          | Except.error _ => ⟨some s, true, none⟩
          | Except.ok count =>
            if updateOk then
              ⟨some { s with lastExecutionTime := some now,
                             nextScheduledTime :=
                               some (calculateNextScheduledTimeFromLast now) },
                true, some count⟩
            else ⟨some s, true, some count⟩
        else ⟨some s, false, none⟩

/-- Embeds the manual `runCleanup()`: wipe first, then update the
schedule; any throw in either call reaches the catch, which returns 0.
Returns the value handed to the caller and the persisted schedule after
the call. -/
def runCleanup (schedule : Option CleanupSchedule) (now : Int)
    (wipe : Except Unit Nat) (updateOk : Bool) : Nat × Option CleanupSchedule :=
  match wipe with
  | Except.error _ => (0, schedule)
  | Except.ok count =>
    if updateOk then
      (count,
        schedule.map (fun s =>
          { s with lastExecutionTime := some now,
                   nextScheduledTime := some (calculateNextScheduledTimeFromLast now) }))
    else (0, schedule)

/-! ### Protocol-fallback ladder (mqtt-client.ts, `connectToDevice` and
`retryWithDifferentProtocol`)

`respond i` is the broker's reaction to the `i`-th connection attempt
for this connection cycle. -/

/-- How the broker answers one connection attempt, classified the way the
error handlers classify `error.message`. -/
inductive BrokerResponse where
  | connected
  | protocolError
  | timeoutError
  | otherError
deriving Repr, DecidableEq

/-- Net observable outcome of a connection cycle (with a status
broadcaster installed): how many connection attempts were made, the
device status written at the end (if any), how many offline events were
appended, how many device-status broadcasts were sent, and whether a
delayed reconnection of the whole cycle was scheduled (timeout path of
`connectToDevice`). -/
structure ConnectOutcome where
  attempts : Nat
  finalStatus : Option String
  offlineEvents : Nat
  broadcasts : Nat
  reconnectScheduled : Bool
deriving Repr, DecidableEq

/-- Embeds `retryWithDifferentProtocol(device, protocolVersion)`: past
version 5 the ladder is exhausted and the device is marked offline with
one offline event and no further attempt; otherwise one attempt is made
with the current version and a protocol-class error moves to the next
version, while any other error marks the device offline (the retry
clients have auto-reconnect disabled; `idx` numbers the attempt inside
the cycle). -/
def retryWithDifferentProtocol (respond : Nat → BrokerResponse) (idx : Nat)
    (protocolVersion : Nat) : ConnectOutcome :=
  if protocolVersion > 5 then
    ⟨0, some "offline", 1, 1, false⟩
  else
    match respond idx with
    | BrokerResponse.connected => ⟨1, some "online", 0, 1, false⟩
    | BrokerResponse.protocolError =>
      let r := retryWithDifferentProtocol respond (idx + 1) (protocolVersion + 1)
      { r with attempts := r.attempts + 1 }
    | BrokerResponse.timeoutError => ⟨1, some "offline", 1, 1, false⟩
    | BrokerResponse.otherError => ⟨1, some "offline", 1, 1, false⟩
termination_by 6 - protocolVersion
decreasing_by omega

/-- Embeds the error dispatch of `connectToDevice`: attempt 0 uses the
device's configured protocol; a timeout-class error schedules a retry of
`connectToDevice` itself after a backoff (no status write), a
protocol-class error enters the fallback ladder at version 4, any other
error marks the device offline with one offline event, and a successful
connect subscribes and marks the device online. -/
def connectToDevice (respond : Nat → BrokerResponse) : ConnectOutcome :=
  match respond 0 with
  | BrokerResponse.connected => ⟨1, some "online", 0, 1, false⟩
  | BrokerResponse.timeoutError => ⟨1, none, 0, 0, true⟩
  | BrokerResponse.protocolError =>
    let r := retryWithDifferentProtocol respond 1 4
    { r with attempts := r.attempts + 1 }
  | BrokerResponse.otherError => ⟨1, some "offline", 1, 1, false⟩

/-! ## Helper lemmas -/

/-- Looking up a key right after `cacheSet` returns the stored reading. -/
theorem lookup_cacheSet (c : List (String × Reading)) (k : String) (v : Reading) :
    (cacheSet c k v).lookup k = some v := by
  induction c with
  | nil => simp [cacheSet, List.lookup]
  | cons p rest ih =>
    obtain ⟨k', v'⟩ := p
    by_cases h : k' = k
    · simp [cacheSet, h, List.lookup]
    · simp only [cacheSet, if_neg h, List.lookup]
      have hbf : (k == k') = false := beq_eq_false_iff_ne.mpr (Ne.symm h)
      rw [hbf]
      exact ih

/-- The persistence loop counts exactly the successful readings and
collects exactly the failing ones, in order. -/
theorem flushLoop_spec (persistOk : BatchedData → Bool) (l : List BatchedData) :
    (flushLoop persistOk l).1 = (l.filter persistOk).length ∧
    (flushLoop persistOk l).2 = l.filter (fun d => !(persistOk d)) := by
  induction l with
  | nil => simp [flushLoop]
  | cons d rest ih =>
    by_cases h : persistOk d = true
    · simp [flushLoop, h, List.filter_cons, ih.1, ih.2]
    · simp [flushLoop, h, List.filter_cons, ih.1, ih.2]

/-! ## Claims -/

/-- C1: every cleanup run — scheduled tick or manual `runCleanup` — that
records last execution time `T` sets the new `nextScheduledTime` to
exactly `T + intervalDays * 24h` (= `T` + 172800000 ms for
`intervalDays = 2`), by pure duration addition from the execution
instant `now`, however late after the `next ≤ now` boundary the tick
fired. -/
theorem cleanup_drift_free (T : Int) (s : CleanupSchedule) (now next : Int)
    (c : Nat) (hen : s.isEnabled = true) (hnx : s.nextScheduledTime = some next)
    (hle : next ≤ now) :
    calculateNextScheduledTimeFromLast T = T + 172800000 ∧
    (checkAndRunCleanup (some s) now (Except.ok c) true).schedule =
      some { s with lastExecutionTime := some now,
                    nextScheduledTime := some (now + 172800000) } ∧
    runCleanup (some s) now (Except.ok c) true =
      (c, some { s with lastExecutionTime := some now,
                        nextScheduledTime := some (now + 172800000) }) := by
  refine ⟨?_, ?_, ?_⟩
  · simp [calculateNextScheduledTimeFromLast, CLEANUP_INTERVAL_DAYS]
  · simp [checkAndRunCleanup, hen, hnx, hle, calculateNextScheduledTimeFromLast,
      CLEANUP_INTERVAL_DAYS]
  · simp [runCleanup, calculateNextScheduledTimeFromLast, CLEANUP_INTERVAL_DAYS]

/-- C1 witness: a concrete tick that fires very late past the boundary
still schedules exactly 172800000 ms after the execution instant. -/
theorem cleanup_drift_free_witness :
    (checkAndRunCleanup (some ⟨none, some 5, true⟩) 1000000 (Except.ok 500) true).schedule =
      some ⟨some 1000000, some (1000000 + 172800000), true⟩ :=
  (cleanup_drift_free 0 ⟨none, some 5, true⟩ 1000000 5 500 rfl rfl (by decide)).2.1

/-- C9: when the wipe throws on a due tick, the persisted schedule is
untouched, the wipe was attempted, and every later tick past the same
`nextScheduledTime` boundary attempts the wipe again — succeeding as soon
as a wipe and the schedule update go through. -/
theorem wipe_failure_preserves_schedule (s : CleanupSchedule) (now next : Int)
    (u : Bool) (hen : s.isEnabled = true) (hnx : s.nextScheduledTime = some next)
    (hle : next ≤ now) :
    (checkAndRunCleanup (some s) now (Except.error ()) u).schedule = some s ∧
    (checkAndRunCleanup (some s) now (Except.error ()) u).wipeAttempted = true ∧
    (∀ now' u', next ≤ now' →
      (checkAndRunCleanup (some s) now' (Except.error ()) u').wipeAttempted = true) ∧
    (∀ now' c, next ≤ now' →
      (checkAndRunCleanup (some s) now' (Except.ok c) true).deletedCount = some c) := by
  refine ⟨?_, ?_, ?_, ?_⟩
  · simp [checkAndRunCleanup, hen, hnx, hle]
  · simp [checkAndRunCleanup, hen, hnx, hle]
  · intro now' u' hle'
    simp [checkAndRunCleanup, hen, hnx, hle']
  · intro now' c hle'
    simp [checkAndRunCleanup, hen, hnx, hle']

/-- C9 witness: a concrete due tick whose wipe throws leaves the concrete
schedule record exactly as it was. -/
theorem wipe_failure_preserves_schedule_witness :
    (checkAndRunCleanup (some ⟨some 1, some 5, true⟩) 7 (Except.error ()) true).schedule =
      some ⟨some 1, some 5, true⟩ :=
  (wipe_failure_preserves_schedule ⟨some 1, some 5, true⟩ 7 5 true rfl rfl (by decide)).1

/-- C10: `runCleanup()` swallows storage errors: a throwing wipe returns
0 with the schedule unchanged, a throwing schedule update after a
successful wipe also returns 0, and a successful wipe of an empty table
returns 0 as well — so a caller seeing 0 cannot tell failure from an
empty table. -/
theorem run_cleanup_swallows_errors (schedule : Option CleanupSchedule) (now : Int)
    (u : Bool) (c : Nat) :
    runCleanup schedule now (Except.error ()) u = (0, schedule) ∧
    runCleanup schedule now (Except.ok c) false = (0, schedule) ∧
    (runCleanup schedule now (Except.ok 0) true).1 = 0 := by
  refine ⟨?_, ?_, ?_⟩ <;> simp [runCleanup]

/-- C3: the alert status mapping follows the 1700/2500 thresholds, and
`handleMessage` applies this very function to the level it decoded before
caching, broadcasting, and enqueuing the reading. -/
theorem alert_status_thresholds_and_use :
    (∀ n : Int,
      (n < 1700 → calculateAlertStatus n = "Normal") ∧
      (1700 ≤ n → n ≤ 2499 → calculateAlertStatus n = "Moderate Drunk") ∧
      (2500 ≤ n → calculateAlertStatus n = "Completely Drunk")) ∧
    (∀ (hasSink : Bool) (st : MqttState) (devId : String) (now : Int)
        (msg : RawMessage) (lvl : Int), decodeMessage msg = some lvl →
      (handleMessage hasSink st devId now msg).1.latestReadingsCache.lookup devId =
        some ⟨lvl, now, calculateAlertStatus lvl⟩ ∧
      (handleMessage hasSink st devId now msg).1.batchBuffer =
        st.batchBuffer ++ [⟨devId, lvl, calculateAlertStatus lvl, now⟩] ∧
      (hasSink = true →
        MqttEvent.sensorBroadcast devId ⟨lvl, now, calculateAlertStatus lvl⟩ ∈
          (handleMessage hasSink st devId now msg).2)) := by
  constructor
  · intro n
    refine ⟨?_, ?_, ?_⟩ <;> intros <;> unfold calculateAlertStatus <;>
      split_ifs <;> first | rfl | omega
  · intro hasSink st devId now msg lvl h
    refine ⟨?_, ?_, ?_⟩
    · simp [handleMessage, h, lookup_cacheSet]
    · simp [handleMessage, h]
    · intro hs
      subst hs
      simp [handleMessage, h]

/-- C3 witness: a concrete in-range level gets the middle label, and a
concrete ingested message lands in the buffer carrying exactly that
label. -/
theorem alert_status_thresholds_and_use_witness :
    calculateAlertStatus 1800 = "Moderate Drunk" ∧
    (handleMessage true ⟨[], []⟩ "D1" 0 (RawMessage.unparsed (some 1800))).1.batchBuffer =
      [⟨"D1", 1800, calculateAlertStatus 1800, 0⟩] := by
  refine ⟨(alert_status_thresholds_and_use.1 1800).2.1 (by decide) (by decide), ?_⟩
  have h := (alert_status_thresholds_and_use.2 true ⟨[], []⟩ "D1" 0
      (RawMessage.unparsed (some 1800)) 1800 rfl).2.1
  simpa using h

/-- C5 counterexample: the payload whose raw text is the JSON object
with the single unrecognized field `foo` parses as JSON, offers none of
the recognized field names, and its raw text does not parse as a number
(`parseFloat` is NaN) — yet `handleMessage` does not drop it: it is
ingested as a reading with level 0, entering the batch buffer. -/
theorem decode_drop_counterexample :
    hasRecognizedField (Json.obj [("foo", Json.num 1)]) = false ∧
    rawParseFloatValue (RawMessage.parsed (Json.obj [("foo", Json.num 1)]) none) = none ∧
    (handleMessage true ⟨[], []⟩ "D1" 0
        (RawMessage.parsed (Json.obj [("foo", Json.num 1)]) none)).1.batchBuffer =
      [⟨"D1", 0, "Normal", 0⟩] := by
  refine ⟨rfl, rfl, ?_⟩
  decide

/-- C5 amended: a message is dropped — with no cache update, no
broadcast, no enqueue and no device update — exactly when the payload
fails to parse as JSON and `parseFloat` of the raw text is NaN; a payload
that parses as JSON but yields no recognized field (or is not an object)
is not dropped: it is ingested with alcohol level 0. -/
theorem decode_drop_amended (hasSink : Bool) (st : MqttState) (devId : String)
    (now : Int) (msg : RawMessage) :
    (decodeMessage msg = none → handleMessage hasSink st devId now msg = (st, [])) ∧
    (decodeMessage msg = none ↔ msg = RawMessage.unparsed none) ∧
    (∀ j pf, msg = RawMessage.parsed j pf → hasRecognizedField j = false →
      decodeMessage msg = some 0) := by
  refine ⟨?_, ?_, ?_⟩
  · intro h
    simp [handleMessage, h]
  · cases msg with
    | parsed j pf => cases j <;> simp [decodeMessage]
    | unparsed pf => cases pf <;> simp [decodeMessage]
  · rintro j pf rfl hrec
    cases j with
    | num n => simp [decodeMessage]
    | prim p => simp [decodeMessage]
    | obj fields =>
      cases hl1 : fields.lookup "alcohol_level" with
      | some v => simp [hasRecognizedField, recognizedFieldNames, hl1] at hrec
      | none =>
      cases hl2 : fields.lookup "Index" with
      | some v => simp [hasRecognizedField, recognizedFieldNames, hl2] at hrec
      | none =>
      cases hl3 : fields.lookup "level" with
      | some v => simp [hasRecognizedField, recognizedFieldNames, hl3] at hrec
      | none =>
      cases hl4 : fields.lookup "value" with
      | some v => simp [hasRecognizedField, recognizedFieldNames, hl4] at hrec
      | none => simp [decodeMessage, extractAlcoholLevel, hl1, hl2, hl3, hl4]

/-- C5 amended witness: the concrete non-JSON, non-numeric payload is
dropped with no state change at all. -/
theorem decode_drop_amended_witness :
    handleMessage true ⟨[], []⟩ "D1" 0 (RawMessage.unparsed none) = (⟨[], []⟩, []) :=
  (decode_drop_amended true ⟨[], []⟩ "D1" 0 (RawMessage.unparsed none)).1 rfl

/-- C6: `flushBatch` attempts every reading of the swapped-out buffer —
so one failure never blocks the rest — returns the number persisted, and
either prepends the failed readings in order onto the new buffer
(`retryOnError = true`) or drops them (`retryOnError = false`).  `mid`
is what the new buffer holds by the end of the flush; it must be empty
when the flushed buffer was (the empty-buffer path returns without
awaiting). -/
theorem flush_batch_spec (persistOk : BatchedData → Bool) (retryOnError : Bool)
    (buffer mid : List BatchedData) (hmid : buffer = [] → mid = []) :
    (flushBatch persistOk retryOnError buffer mid).1 = (buffer.filter persistOk).length ∧
    (flushBatch persistOk retryOnError buffer mid).2 =
      (if retryOnError then buffer.filter (fun d => !(persistOk d)) else []) ++ mid := by
  by_cases hb : buffer = []
  · subst hb
    simp [flushBatch, hmid rfl]
  · obtain ⟨h1, h2⟩ := flushLoop_spec persistOk buffer
    refine ⟨by simp [flushBatch, hb, h1], ?_⟩
    by_cases hr : retryOnError = true
    · by_cases hf : buffer.filter (fun d => !(persistOk d)) = []
      · simp [flushBatch, hb, h2, hf, hr]
      · simp [flushBatch, hb, h2, hf, hr]
    · simp at hr
      simp [flushBatch, hb, h2, hr]

/-- C6 witness: flushing a concrete two-element buffer whose first
reading fails persists the second one, reports 1, and requeues the failed
reading at the front. -/
theorem flush_batch_spec_witness :
    (flushBatch (fun d => decide (d.alcoholLevel < 2500)) true
        [⟨"D1", 3000, "Completely Drunk", 0⟩, ⟨"D1", 100, "Normal", 1⟩] []).1 = 1 ∧
    (flushBatch (fun d => decide (d.alcoholLevel < 2500)) true
        [⟨"D1", 3000, "Completely Drunk", 0⟩, ⟨"D1", 100, "Normal", 1⟩] []).2 =
      [⟨"D1", 3000, "Completely Drunk", 0⟩] := by
  have h := flush_batch_spec (fun d => decide (d.alcoholLevel < 2500)) true
      [⟨"D1", 3000, "Completely Drunk", 0⟩, ⟨"D1", 100, "Normal", 1⟩] []
      (fun hc => rfl)
  refine ⟨?_, ?_⟩
  · rw [h.1]; decide
  · rw [h.2]; decide

/-- C7: ingesting a decodable message enqueues exactly one reading, and
the enqueue path itself triggers a flush precisely when that enqueue
brings the buffer to `BATCH_SIZE` (100) or more; below the threshold no
flush is triggered by the enqueue. -/
theorem batch_full_triggers_flush (hasSink : Bool) (st : MqttState) (devId : String)
    (now : Int) (msg : RawMessage) (lvl : Int) (h : decodeMessage msg = some lvl) :
    (MqttEvent.flushTriggered ∈ (handleMessage hasSink st devId now msg).2 ↔
      BATCH_SIZE ≤ st.batchBuffer.length + 1) ∧
    (handleMessage hasSink st devId now msg).1.batchBuffer.length =
      st.batchBuffer.length + 1 := by
  constructor
  · by_cases hful : BATCH_SIZE ≤ st.batchBuffer.length + 1 <;>
      cases hasSink <;>
      simp [handleMessage, h, hful, BATCH_SIZE]
  · simp [handleMessage, h]

/-- C7 witness: with 99 readings already buffered, one more concrete
ingested message triggers the immediate flush. -/
theorem batch_full_triggers_flush_witness :
    MqttEvent.flushTriggered ∈
      (handleMessage true ⟨[], List.replicate 99 ⟨"D1", 1, "Normal", 0⟩⟩ "D1" 0
        (RawMessage.unparsed (some 5))).2 := by
  have h := batch_full_triggers_flush true ⟨[], List.replicate 99 ⟨"D1", 1, "Normal", 0⟩⟩
      "D1" 0 (RawMessage.unparsed (some 5)) 5 rfl
  exact h.1.mpr (by simp [BATCH_SIZE])

/-- C8: in the trace of a successfully decoded message (with a sensor
sink installed) the cache update and the sensor broadcast occur strictly
before the reading is enqueued into the batch buffer, so the broadcast
never waits on persistence. -/
theorem broadcast_precedes_enqueue (st : MqttState) (devId : String) (now : Int)
    (msg : RawMessage) (lvl : Int) (h : decodeMessage msg = some lvl) :
    ∃ rest, (handleMessage true st devId now msg).2 =
      MqttEvent.cacheUpdate devId ⟨lvl, now, calculateAlertStatus lvl⟩ ::
      MqttEvent.sensorBroadcast devId ⟨lvl, now, calculateAlertStatus lvl⟩ ::
      MqttEvent.enqueued ⟨devId, lvl, calculateAlertStatus lvl, now⟩ :: rest := by
  refine ⟨(if BATCH_SIZE ≤ (st.batchBuffer ++
      [(⟨devId, lvl, calculateAlertStatus lvl, now⟩ : BatchedData)]).length then
      [MqttEvent.flushTriggered] else []) ++ [MqttEvent.deviceStatusOnline devId], ?_⟩
  simp [handleMessage, h]

/-- C8 witness: the trace of a concrete ingested message starts with the
cache update and broadcast, with the enqueue strictly after them. -/
theorem broadcast_precedes_enqueue_witness :
    ∃ rest, (handleMessage true ⟨[], []⟩ "D1" 7 (RawMessage.unparsed (some 1800))).2 =
      MqttEvent.cacheUpdate "D1" ⟨1800, 7, calculateAlertStatus 1800⟩ ::
      MqttEvent.sensorBroadcast "D1" ⟨1800, 7, calculateAlertStatus 1800⟩ ::
      MqttEvent.enqueued ⟨"D1", 1800, calculateAlertStatus 1800, 7⟩ :: rest :=
  broadcast_precedes_enqueue ⟨[], []⟩ "D1" 7 (RawMessage.unparsed (some 1800)) 1800 rfl

/-- Counts, among the devices of a table with pairwise-distinct ids, the
ones that share `d`'s id and trigger the sweep: exactly one when `d`
itself triggers, zero otherwise. -/
theorem countP_timesOut_id (now : Int) (devices : List Device) (d : Device)
    (hnd : (devices.map Device.deviceId).Nodup) (hd : d ∈ devices) :
    devices.countP (fun x => (x.deviceId == d.deviceId) && timesOut now x) =
      if timesOut now d then 1 else 0 := by
  induction devices with
  | nil => cases hd
  | cons a rest ih =>
    rw [List.map_cons, List.nodup_cons] at hnd
    rw [List.countP_cons]
    rcases List.mem_cons.mp hd with rfl | hmem
    · have hz : rest.countP (fun x => (x.deviceId == d.deviceId) && timesOut now x) = 0 := by
        rw [List.countP_eq_zero]
        intro x hx
        simp only [Bool.and_eq_true, beq_iff_eq, not_and]
        intro hid _
        exact hnd.1 (hid ▸ List.mem_map_of_mem Device.deviceId hx)
      rw [hz]
      by_cases ht : timesOut now d = true <;> simp [ht]
    · have hz : ((a.deviceId == d.deviceId) && timesOut now a) = false := by
        have : a.deviceId ≠ d.deviceId := fun he =>
          hnd.1 (he ▸ List.mem_map_of_mem Device.deviceId hmem)
        simp [this]
      rw [hz, ih hnd.2 hmem]
      simp

/-- C2: in one liveness sweep over a device table with distinct ids, an
active device that is `online` and silent for strictly more than the
10000 ms threshold comes out with status `offline` and exactly one
offline event is appended for it, while a device that is `offline` or
`waiting`, or inactive, comes out unchanged with no offline event for
it; the sweep output is exactly the per-device update applied pointwise. -/
theorem liveness_sweep (now : Int) (devices : List Device) (d : Device)
    (hnd : (devices.map Device.deviceId).Nodup) (hd : d ∈ devices) :
    (checkDeviceTimeouts now devices).1 = devices.map (sweepDevice now) ∧
    (d.isActive = true → d.status = "online" →
        now - lastSeenTime d > DEVICE_OFFLINE_THRESHOLD_MS →
      sweepDevice now d = { d with status := "offline" } ∧
      (checkDeviceTimeouts now devices).2.countP (fun e => e.deviceId == d.deviceId) = 1) ∧
    ((d.status = "offline" ∨ d.status = "waiting" ∨ d.isActive = false) →
      sweepDevice now d = d ∧
      (checkDeviceTimeouts now devices).2.countP (fun e => e.deviceId == d.deviceId) = 0) := by
  have hcnt : (checkDeviceTimeouts now devices).2.countP
      (fun e => e.deviceId == d.deviceId) =
      if timesOut now d then 1 else 0 := by
    show ((devices.filter (timesOut now)).map
        (fun x => (⟨x.deviceId, now⟩ : OfflineEvent))).countP
        (fun e => e.deviceId == d.deviceId) = _
    rw [List.countP_map, List.countP_filter]
    exact countP_timesOut_id now devices d hnd hd
  refine ⟨rfl, ?_, ?_⟩
  · intro ha hs hlate
    have ht : timesOut now d = true := by
      simp [timesOut, ha, hs, hlate]
    refine ⟨by simp [sweepDevice, ht], by rw [hcnt, if_pos ht]⟩
  · intro hcase
    have ht : timesOut now d = false := by
      rcases hcase with hs | hs | ha
      · simp [timesOut, hs]
      · simp [timesOut, hs]
      · simp [timesOut, ha]
    refine ⟨by simp [sweepDevice, ht], by rw [hcnt, if_neg (by simp [ht])]⟩

/-- C2 witness: one concrete sweep over a stale-online device and a
waiting device marks the first offline with one event and leaves the
second alone with none. -/
theorem liveness_sweep_witness :
    (checkDeviceTimeouts 20000 [⟨1, "D1", true, "online", some 0⟩,
        ⟨2, "D2", true, "waiting", some 19999⟩]).2.countP
      (fun e => e.deviceId == "D1") = 1 ∧
    (checkDeviceTimeouts 20000 [⟨1, "D1", true, "online", some 0⟩,
        ⟨2, "D2", true, "waiting", some 19999⟩]).2.countP
      (fun e => e.deviceId == "D2") = 0 := by
  constructor
  · exact ((liveness_sweep 20000 [⟨1, "D1", true, "online", some 0⟩,
        ⟨2, "D2", true, "waiting", some 19999⟩] ⟨1, "D1", true, "online", some 0⟩
        (by decide) (by simp)).2.1 rfl rfl (by decide)).2
  · exact ((liveness_sweep 20000 [⟨1, "D1", true, "online", some 0⟩,
        ⟨2, "D2", true, "waiting", some 19999⟩] ⟨2, "D2", true, "waiting", some 19999⟩
        (by decide) (by simp)).2.2 (Or.inr (Or.inl rfl))).2

/-- Exhausting the ladder (version past 5) makes no attempt and marks
offline with one offline event. -/
theorem retry_ladder_exhausted (respond : Nat → BrokerResponse) (idx pv : Nat)
    (hpv : pv > 5) :
    retryWithDifferentProtocol respond idx pv = ⟨0, some "offline", 1, 1, false⟩ := by
  rw [retryWithDifferentProtocol]
  simp [hpv]

/-- A protocol-class rejection inside the ladder adds one attempt and
moves to the next version. -/
theorem retry_ladder_step (respond : Nat → BrokerResponse) (idx pv : Nat)
    (hpv : ¬ pv > 5) (h : respond idx = BrokerResponse.protocolError) :
    retryWithDifferentProtocol respond idx pv =
      { retryWithDifferentProtocol respond (idx + 1) (pv + 1) with
        attempts := (retryWithDifferentProtocol respond (idx + 1) (pv + 1)).attempts + 1 } := by
  conv_lhs => rw [retryWithDifferentProtocol]
  simp [hpv, h]

/-- C4: against a broker that answers every attempt with a
protocol-incompatibility error, the connection cycle makes exactly 3
attempts in total, then marks the device offline, appends exactly one
offline event, broadcasts the updated device once, and schedules no
further automatic attempt. -/
theorem protocol_ladder_three_attempts (respond : Nat → BrokerResponse)
    (h : ∀ i, respond i = BrokerResponse.protocolError) :
    connectToDevice respond =
      { attempts := 3, finalStatus := some "offline", offlineEvents := 1,
        broadcasts := 1, reconnectScheduled := false } := by
  have h4 := retry_ladder_step respond 1 4 (by omega) (h 1)
  have h5 := retry_ladder_step respond 2 5 (by omega) (h 2)
  have h6 := retry_ladder_exhausted respond 3 6 (by omega)
  simp only [connectToDevice, h 0, h4, h5, h6]

/-- C4 witness: the always-rejecting broker yields the 3-attempt
terminal-offline outcome on the nose. -/
theorem protocol_ladder_three_attempts_witness :
    connectToDevice (fun _ => BrokerResponse.protocolError) =
      { attempts := 3, finalStatus := some "offline", offlineEvents := 1,
        broadcasts := 1, reconnectScheduled := false } :=
  protocol_ladder_three_attempts (fun _ => BrokerResponse.protocolError) (fun _ => rfl)

end Apk
